import Mathlib

/-!
# Verification of the quiz-orchestration core of `deep_bot1.py`

This file gives a shallow embedding of the quiz-orchestration core of the
Telegram bot in `src/deep_bot1.py` and proves (or refutes) the frozen claims
about it.

Modelling conventions:

* Pure data manipulation is translated line by line into Lean functions.
* The chat transport (`context.bot.send_poll` etc.) is modelled by trace-style
  result values: each handler returns a value recording what was published,
  which messages were sent, and which deferred closure tasks were scheduled.
  Transport success/failure is a boolean parameter (the outcome of the
  `try`/`except` around the outbound call).
* `random.shuffle` is modelled by an oracle `shuffle : List String → List String`
  together with the hypothesis that the oracle returns a permutation of its
  input.
* Parsed JSON payloads (`json.loads` results) are modelled by `RawPayload`,
  which records exactly the distinctions the code makes with
  `data.get`/`isinstance`: the `options` field is either a list of strings or
  missing/not-a-list, and the `correct_index` field is missing, a non-integer
  value (string, float, null — anything failing `isinstance(x, int)`), or an
  integer.
* Python dictionaries are modelled by association lists with Python's
  update-in-place / append-if-new semantics (`dictGet?` / `dictSet`).
* Python `list[i]` indexing (which accepts negative indices and raises
  `IndexError` out of range) is modelled by `pyIndexGet`; an uncaught
  exception in a handler is modelled by an explicit `crashed` result.
-/

namespace DeepBot

/-- `POLL_DURATION = 86400` — seconds before a published poll is closed. -/
def POLL_DURATION : Nat := 86400

/-- `QUIZ_INTERVAL = 86400` — seconds between daily quiz questions. -/
def QUIZ_INTERVAL : Nat := 86400

/-- Conversation state `POLL_TYPE` (the `AwaitAnonymityChoice` step). -/
def POLL_TYPE : Int := 0

/-- Conversation state `POLL_QUESTION` (the `AwaitQuestionText` step). -/
def POLL_QUESTION : Int := 1

/-- Conversation state `POLL_OPTIONS` (the `AwaitOptionsList` step). -/
def POLL_OPTIONS : Int := 2

/-- Conversation state `POLL_CORRECT` (the `AwaitCorrectOptionNumber` step). -/
def POLL_CORRECT : Int := 3

/-- Conversation state `DAILYQUIZ_TOPIC` (the `AwaitTopic` step). -/
def DAILYQUIZ_TOPIC : Int := 0

/-- Conversation state `DAILYQUIZ_COUNT` (the `AwaitQuestionCount` step). -/
def DAILYQUIZ_COUNT : Int := 1

/-- `ConversationHandler.END`: returning this from an entry point means the
conversation is over and no per-user conversation session is created. -/
def CONV_END : Int := -1

/-- Python `s.strip()`: remove leading and trailing whitespace.  (Defined on
the character list so that it is kernel-computable.) -/
def pyStrip (s : String) : String :=
  String.mk (((s.data.dropWhile Char.isWhitespace).reverse.dropWhile
    Char.isWhitespace).reverse)

/-- Python `s.lower()` on the ASCII command tokens this bot compares. -/
def pyLower (s : String) : String :=
  String.mk (s.data.map Char.toLower)

/-- Helper for `pySplitComma`: accumulate the current piece (reversed). -/
def pySplitCommaAux : List Char → List Char → List String
  | [], acc => [String.mk acc.reverse]
  | c :: cs, acc =>
    if c = ',' then String.mk acc.reverse :: pySplitCommaAux cs []
    else pySplitCommaAux cs (c :: acc)

/-- Python `s.split(',')`: the pieces between commas (an input with no comma
yields one piece; empty pieces are kept). -/
def pySplitComma (s : String) : List String :=
  pySplitCommaAux s.data []

/-- Python `s[:n]`: the first `n` characters of `s`. -/
def pyTake (s : String) (n : Nat) : String :=
  String.mk (s.data.take n)

/-- Python `len(s)` for a string: the number of characters. -/
def pyLen (s : String) : Nat :=
  s.data.length

/-- Python `lst.index(a)` for `lst : list[str]`: the position of the first
element equal to `a` (only used when `a` is known to occur in `lst`;
Python raises `ValueError` otherwise). -/
def pyListIndex (a : String) : List String → Nat
  | [] => 0
  | b :: l => if b = a then 0 else pyListIndex a l + 1

/-- Python `scores.get(k, default)` / `polls.get(k)` on an association list:
the value stored at the first occurrence of the key for a dict modelled as an
association list (a well-formed dict has each key at most once). -/
def dictGet? {α β : Type} [DecidableEq α] : List (α × β) → α → Option β
  | [], _ => none
  | (k', v) :: rest, k => if k' = k then some v else dictGet? rest k

/-- Python `d[k] = v`: replace the value at `k` if present, else append the
new binding (CPython dicts preserve insertion order). -/
def dictSet {α β : Type} [DecidableEq α] : List (α × β) → α → β → List (α × β)
  | [], k, v => [(k, v)]
  | (k', v') :: rest, k, v =>
      if k' = k then (k', v) :: rest else (k', v') :: dictSet rest k v

/-- Python `lst[i]` for `lst : list[str]`: a negative index counts from the
end; an index out of range raises `IndexError`, modelled as `none`. -/
def pyIndexGet (l : List String) (i : Int) : Option String :=
  let j : Int := if i < 0 then i + l.length else i
  if 0 ≤ j then l.get? j.toNat else none

/-- Model of Python `int(s)` as used on the stripped conversation inputs:
leading/trailing whitespace is ignored, an optional sign is followed by a
non-empty run of decimal digits; anything else raises `ValueError` (`none`). -/
def pyParseInt (s : String) : Option Int :=
  let cs := (pyStrip s).data
  let core : Bool × List Char :=
    match cs with
    | '-' :: rest => (true, rest)
    | '+' :: rest => (false, rest)
    | _ => (false, cs)
  let ds := core.2
  if ds ≠ [] ∧ ds.all Char.isDigit then
    let n : Nat := ds.foldl (fun acc c => acc * 10 + (c.toNat - '0'.toNat)) 0
    some (if core.1 then -(n : Int) else (n : Int))
  else none

/-- Lines 393–399 of `handle_auto_quiz`: an option longer than 95 characters
is cut to its first 95 characters with a trailing `"..."` marker. -/
def truncateOption (option : String) : String :=
  if pyLen option > 95 then pyTake option 95 ++ "..." else option

/-- The `correct_index` field of a parsed generation payload, with exactly the
distinctions the code makes: `data.get("correct_index")` yields `missing`
(Python `None`) when the key is absent; `notInt` is any present value failing
`isinstance(x, int)` (a string, float or null); `ofInt n` is an integer. -/
inductive CIField where
  | missing
  | notInt
  | ofInt (n : Int)
deriving DecidableEq

/-- A parsed generation payload (the result of a successful `json.loads`):
`question` is the `"question"` field when it is present (a string),
`options` is the `"options"` field when it is present and is a list
(`none` covers both a missing key and a non-list value, the two cases the
code folds together with `not isinstance(options, list)`), and
`correct_index` is as in `CIField`. -/
structure RawPayload where
  question : Option String
  options : Option (List String)
  correct_index : CIField
deriving DecidableEq

/-- One raw generation result: either `json.loads` failed, or it produced a
parsed payload. -/
inductive GenResult where
  | parseFail
  | payload (p : RawPayload)
deriving DecidableEq

/-- The arguments of a successful `context.bot.send_poll` call: the poll as
published to the channel. -/
structure PublishedPoll where
  question : String
  options : List String
  is_anonymous : Bool
  correct_option_id : Nat
deriving DecidableEq

/-! ## Conversation state machine: the `/poll` authoring flow -/

/-- `start_poll_channel` (lines 286–293), the `/poll` entry point: a caller
whose id is not in `AUTHORIZED_USER_IDS` is sent a denial and the handler
returns `ConversationHandler.END` (no conversation session is created);
otherwise the anonymity prompt is sent and state `POLL_TYPE` is entered. -/
def start_poll_channel (authorized_user_ids : List Nat) (user_id : Nat) : Int :=
  if user_id ∈ authorized_user_ids then POLL_TYPE else CONV_END

/-- `receive_poll_type_channel` (lines 295–304): the stripped, lowercased
input must be the literal `"yes"` or `"no"`, otherwise the handler re-prompts
and stays in `POLL_TYPE` (`none`).  On either accepted token the stored
`user_data['is_anonymous']` field is set to the literal `True` and the flow
advances to `POLL_QUESTION` (`some` of the stored value). -/
def receive_poll_type_channel (text : String) : Option Bool :=
  let user_input := pyLower (pyStrip text)
  if user_input = "yes" ∨ user_input = "no" then some true else none

/-- `receive_options_channel` (lines 312–321): the input is split on commas,
each piece stripped, blank pieces discarded; fewer than 2 pieces re-prompts
(`none`, state stays `POLL_OPTIONS`); otherwise the first 10 pieces are
stored as `user_data['options']` and the flow advances to `POLL_CORRECT`. -/
def receive_options_channel (text : String) : Option (List String) :=
  let options := ((pySplitComma text).map pyStrip).filter (fun s => s ≠ "")
  if options.length < 2 then none else some (options.take 10)

/-- Result of the `POLL_CORRECT` step (`receive_correct_option_channel`):
either the input is rejected and the handler re-prompts in state
`POLL_CORRECT`, or the flow terminates (`done`): `published = some (p, d)`
records a successful `send_poll` of `p` with a closure task scheduled after
`d` seconds, `published = none` a failed one; `failMsgSent` records whether
the "Failed to create poll" message was sent. -/
inductive CorrectResult where
  | reprompt
  | done (published : Option (PublishedPoll × Nat)) (failMsgSent : Bool)
deriving DecidableEq

/-- `receive_correct_option_channel` (lines 323–352): parse the input as an
integer, subtract 1, and reject (re-prompt) unless the result indexes into
the collected options.  Then publish the poll (question capped to 300
characters, `is_anonymous=True`, the 0-based correct index); on transport
success schedule `close_poll` after `POLL_DURATION` seconds, on transport
failure send a failure message and schedule nothing.  Either way the session
data is cleared and the conversation ends. -/
def receive_correct_option_channel (text : String) (question : String)
    (options : List String) (publishOk : Bool) : CorrectResult :=
  match pyParseInt text with
  | none => .reprompt
  | some n =>
    let index : Int := n - 1
    if index < 0 ∨ (options.length : Int) ≤ index then .reprompt
    else if publishOk then
      .done (some ({ question := pyTake question 300, options := options,
                     is_anonymous := true,
                     correct_option_id := index.toNat }, POLL_DURATION)) false
    else .done none true

/-! ## Conversation state machine: the `/dailyquiz` configuration flow -/

/-- `start_dailyquiz` (lines 428–431), the `/dailyquiz` entry point: the
handler sends the topic prompt and enters state `DAILYQUIZ_TOPIC`
unconditionally — it never inspects the calling user. -/
def start_dailyquiz (_user_id : Nat) : Int :=
  DAILYQUIZ_TOPIC

/-- `receive_dailyquiz_count` (lines 440–454): the stripped input must parse
as an integer (`none` re-prompts in `DAILYQUIZ_COUNT`); on success the count
is stored, the session is marked active with empty score and poll maps, and
the scheduler task is spawned. -/
def receive_dailyquiz_count (text : String) : Option Int :=
  pyParseInt text

/-! ## The shuffle-and-relocate step -/

/-- Lines 403–405 (and likewise 485–487): remember the option text at the
correct index, shuffle the list, and recompute the correct index as the
position of the first element equal to the remembered text
(Python `list.index`).  `random.shuffle` is the oracle `shuffle`. -/
def shuffle_relocate (shuffle : List String → List String)
    (options : List String) (correct_index : Nat) : List String × Nat :=
  let original_correct_option := options.getD correct_index ""
  let shuffled := shuffle options
  (shuffled, pyListIndex original_correct_option shuffled)

/-! ## The single-question auto-quiz path -/

/-- Result of `handle_auto_quiz` after a successful `json.loads`: `rejected`
means structural validation failed (an error message is sent, nothing is
published); `done` is as in `CorrectResult`. -/
inductive AutoQuizResult where
  | rejected (failMsgSent : Bool)
  | done (published : Option (PublishedPoll × Nat)) (failMsgSent : Bool)
deriving DecidableEq

/-- Lines 389–391 of `handle_auto_quiz` (and 765–767 of `handle_TQ`): a
`correct_index` that is missing, not an integer, or outside
`[0, len(options))` is replaced by 0. -/
def validate_correct_index (ci : CIField) (optionsLen : Nat) : Nat :=
  match ci with
  | .ofInt n => if 0 ≤ n ∧ n < (optionsLen : Int) then n.toNat else 0
  | _ => 0

/-- `handle_auto_quiz` (lines 354–423), from the parsed payload onward:
reject unless `options` is a list of exactly 4; default `correct_index` to 0
when it is missing, not an integer, or outside `[0, 4)`; truncate every
option to 95 characters (with `"..."`); remember the truncated option at the
correct index, shuffle, and relocate it; publish with the user's question
text capped to 300 characters and `is_anonymous=True`.  On transport success
a closure task is scheduled after `POLL_DURATION` seconds; on failure a
failure message is sent and nothing is scheduled. -/
def handle_auto_quiz (shuffle : List String → List String) (text : String)
    (payload : RawPayload) (publishOk : Bool) : AutoQuizResult :=
  match payload.options with
  | none => .rejected true
  | some options =>
    if options.length = 4 then
      let correct_index : Nat := validate_correct_index payload.correct_index options.length
      let truncated_options := options.map truncateOption
      let result := shuffle_relocate shuffle truncated_options correct_index
      if publishOk then
        .done (some ({ question := pyTake text 300, options := result.1,
                       is_anonymous := true,
                       correct_option_id := result.2 }, POLL_DURATION)) false
      else .done none true
    else .rejected true

/-! ## The daily-quiz scheduler -/

/-- Outcome of one loop iteration of `run_dailyquiz` (lines 480–500), from
the parsed payload onward.  `skipped`: the `continue` branches (bad options).
`crashed`: an uncaught exception aborts the whole scheduler task — this
happens when `options[correct_index]` at line 485 raises (`correct_index`
present but not an integer, or an integer out of Python's index range).
`published p closeDelay rc`: the poll `p` was sent and `rc` recorded in
`dailyquiz_polls`; `closeDelay` records the deferred-closure delay, and is
always `none` because this path never calls `job_queue.run_once`.
`publishFailed msg`: `send_poll` raised; `msg` records whether any message
was sent to the channel about it (the code only logs, so always `false`). -/
inductive DailyStepResult where
  | skipped
  | crashed
  | published (p : PublishedPoll) (closeDelay : Option Nat) (recordedCorrect : Nat)
  | publishFailed (failMsgSent : Bool)
deriving DecidableEq

/-- One iteration body of `run_dailyquiz` (lines 480–500) on a parsed
payload: `question` defaults to `"Daily Quiz"`; skip unless `options` is a
list of exactly 4; `correct_index` defaults to 0 only when the key is
missing (`data.get("correct_index", 0)`) — any present value is used as-is
in `options[correct_index]`, which crashes on a non-integer or an integer
outside Python's index range; shuffle and relocate (no truncation); publish
with the generated question capped to 300 characters, recording the new
correct index, without scheduling any closure; a failed publish is only
logged. -/
def dailyquiz_item_step (shuffle : List String → List String)
    (payload : RawPayload) (publishOk : Bool) : DailyStepResult :=
  let question := payload.question.getD "Daily Quiz"
  match payload.options with
  | none => .skipped
  | some options =>
    if options.length = 4 then
      match payload.correct_index with
      | .notInt => .crashed
      | ci =>
        let ciInt : Int := match ci with
          | .ofInt n => n
          | _ => 0
        match pyIndexGet options ciInt with
        | none => .crashed
        | some original_correct_option =>
          let shuffled := shuffle options
          let correct_index := pyListIndex original_correct_option shuffled
          if publishOk then
            .published { question := pyTake question 300, options := shuffled,
                         is_anonymous := true, correct_option_id := correct_index }
                       none correct_index
          else .publishFailed false
    else .skipped

/-- The `for i in range(count)` loop of `run_dailyquiz` (lines 467–501).
`gen i` is the generation result of iteration `i`, `activeAt i` the value of
`chat_data["dailyquiz_active"]` read at the top of iteration `i` (the stop
command may flip it during the inter-question sleep), `publishOk i` the
transport outcome, `pollIdAt i` the transport-assigned poll id.  Returns the
polls published (in order), the final `dailyquiz_polls` map, and whether the
task died on an uncaught exception. -/
def dq_loop (shuffle : List String → List String) (gen : Nat → GenResult)
    (activeAt : Nat → Bool) (publishOk : Nat → Bool) (pollIdAt : Nat → String) :
    Nat → Nat → List PublishedPoll → List (String × Nat) →
      List PublishedPoll × List (String × Nat) × Bool
  | 0, _, pub, polls => (pub.reverse, polls, false)
  | fuel + 1, i, pub, polls =>
    if activeAt i then
      match gen i with
      | .parseFail => dq_loop shuffle gen activeAt publishOk pollIdAt fuel (i + 1) pub polls
      | .payload p =>
        match dailyquiz_item_step shuffle p (publishOk i) with
        | .skipped => dq_loop shuffle gen activeAt publishOk pollIdAt fuel (i + 1) pub polls
        | .crashed => (pub.reverse, polls, true)
        | .published poll _ rc =>
            dq_loop shuffle gen activeAt publishOk pollIdAt fuel (i + 1)
              (poll :: pub) (dictSet polls (pollIdAt i) rc)
        | .publishFailed _ =>
            dq_loop shuffle gen activeAt publishOk pollIdAt fuel (i + 1) pub polls
    else (pub.reverse, polls, false)

/-- Descending-by-score order on leaderboard entries, the key order of
`sorted(scores.items(), key=lambda item: item[1], reverse=True)`. -/
def scoreGE (a b : Nat × Nat) : Prop := b.2 ≤ a.2

instance : DecidableRel scoreGE := fun a b => Nat.decLe b.2 a.2

instance : IsTotal (Nat × Nat) scoreGE := ⟨fun a b => Nat.le_total b.2 a.2⟩

instance : IsTrans (Nat × Nat) scoreGE := ⟨fun _ _ _ h h' => Nat.le_trans h' h⟩

/-- The leaderboard ordering of a score map: the entries sorted descending by
score (`sorted(..., reverse=True)` is a stable sort; ties keep their map
order, which the claims do not rely on). -/
def leaderboard_order (scores : List (Nat × Nat)) : List (Nat × Nat) :=
  List.insertionSort scoreGE scores

/-- Lines 502–509: the leaderboard text.  An empty score map yields the
no-answers message; otherwise one line per participant in descending score
order. -/
def render_leaderboard (scores : List (Nat × Nat)) : String :=
  if scores.isEmpty then "No correct answers were recorded."
  else
    (leaderboard_order scores).foldl
      (fun acc uv => acc ++ "User " ++ toString uv.1 ++ ": " ++ toString uv.2 ++ " points\n")
      "Daily Quiz Leaderboard:\n"

/-- The state left behind by a `run_dailyquiz` task that reached its finale
(lines 502–512): the polls it published, the leaderboard text it sent, and
the values written back into `chat_data`. -/
structure FinishedRun where
  published : List PublishedPoll
  leaderboard : String
  final_active : Bool
  final_polls : List (String × Nat)
  final_scores : List (Nat × Nat)
deriving DecidableEq

/-- Overall outcome of `run_dailyquiz` (lines 462–512): `noTopic` is the
early return when no topic was stored; `crashed` is an uncaught exception in
the loop (the finale never runs); `finished` is normal completion or a stop
via the `active` flag, after which the leaderboard is sent and the session
state is reset. -/
inductive RunOutcome where
  | noTopic
  | crashed (published : List PublishedPoll)
  | finished (r : FinishedRun)
deriving DecidableEq

/-- `run_dailyquiz` (lines 462–512): read topic and count; return early with
no topic; run the loop for `count` iterations (Python `range` of a
non-positive count is empty); if the loop survived, render the leaderboard
from the scores accumulated by the answer handler (`scoresAtEnd`), send it,
and reset `dailyquiz_active` to `False` and both maps to `{}`. -/
def run_dailyquiz (shuffle : List String → List String) (gen : Nat → GenResult)
    (activeAt : Nat → Bool) (publishOk : Nat → Bool) (pollIdAt : Nat → String)
    (topic : Option String) (count : Int) (scoresAtEnd : List (Nat × Nat)) :
    RunOutcome :=
  match topic with
  | none => .noTopic
  | some _ =>
    let result := dq_loop shuffle gen activeAt publishOk pollIdAt count.toNat 0 [] []
    if result.2.2 then .crashed result.1
    else .finished { published := result.1,
                     leaderboard := render_leaderboard scoresAtEnd,
                     final_active := false, final_polls := [], final_scores := [] }

/-! ## The scoring ledger -/

/-- `poll_answer_handler` (lines 514–524): look the answer's poll id up in
`dailyquiz_polls`; if absent, do nothing; if the recorded correct option is
among the chosen option ids, bump that participant's score by 1 (starting
from 0 if absent); otherwise do nothing.  Returns the new score map. -/
def poll_answer_handler (dailyquiz_polls : List (String × Nat))
    (scores : List (Nat × Nat)) (poll_id : String) (user_id : Nat)
    (option_ids : List Nat) : List (Nat × Nat) :=
  match dictGet? dailyquiz_polls poll_id with
  | none => scores
  | some correct_option =>
    if correct_option ∈ option_ids then
      dictSet scores user_id ((dictGet? scores user_id).getD 0 + 1)
    else scores

/-! ## Statement-side definitions

Definitions used only to state the claims: claim-side restatements to be
compared with the code, result projections, and concrete scenario inputs. -/

/-- The spec's description of the collected options: "input is split on
commas, blank entries discarded, entries beyond the 10th discarded".  Stated
separately from `receive_options_channel` (which checks the 2-minimum before
discarding beyond the 10th) so the two can be compared. -/
def collectedOptions (text : String) : List String :=
  ((((pySplitComma text).map pyStrip).filter (fun s => s ≠ "")).take 10)

/-- A `correct_index` field the claims call defective for a 4-option item:
missing, not an integer, or an integer outside `[0, 4)`. -/
def ciInvalidFor4 : CIField → Bool
  | .missing => true
  | .notInt => true
  | .ofInt n => decide (n < 0 ∨ 4 ≤ n)

/-- A 100-character option text (longer than the 95-character display cap). -/
def longOpt : String :=
  String.mk (List.replicate 100 'a')

/-- Projection: the option list of the poll published by a daily-quiz loop
iteration, if one was published. -/
def dailyPublishedOptions : DailyStepResult → Option (List String)
  | .published p _ _ => some p.options
  | _ => none

/-- Projection: how many polls a finished scheduler run published. -/
def publishedCount : RunOutcome → Option Nat
  | .finished r => some r.published.length
  | _ => none

/-- Projection: the leaderboard text a finished scheduler run sent. -/
def leaderboardOf : RunOutcome → Option String
  | .finished r => some r.leaderboard
  | _ => none

/-- Concrete scenario generator: every iteration yields a well-formed
4-option payload with correct index 1. -/
def goodGen : Nat → GenResult :=
  fun _ => .payload { question := some "Q", options := some ["a", "b", "c", "d"],
                      correct_index := .ofInt 1 }

/-- Concrete stop-request timeline: the `active` flag reads true at the top
of iterations 0 and 1 and false from iteration 2 on (the stop command was
issued after the second question was published). -/
def stopAfterTwo : Nat → Bool :=
  fun i => decide (i < 2)

/-! ## Helper lemmas -/

theorem pyListIndex_lt_length {a : String} :
    ∀ {l : List String}, a ∈ l → pyListIndex a l < l.length
  | b :: l, h => by
    unfold pyListIndex
    by_cases hb : b = a
    · simp [hb]
    · have hmem : a ∈ l := by
        rcases List.mem_cons.mp h with h1 | h1
        · exact absurd h1.symm hb
        · exact h1
      simpa [hb] using Nat.succ_lt_succ (pyListIndex_lt_length hmem)

theorem getD_pyListIndex {a : String} :
    ∀ {l : List String}, a ∈ l → l.getD (pyListIndex a l) "" = a
  | b :: l, h => by
    unfold pyListIndex
    by_cases hb : b = a
    · simp [hb]
    · have hmem : a ∈ l := by
        rcases List.mem_cons.mp h with h1 | h1
        · exact absurd h1.symm hb
        · exact h1
      simpa [hb] using getD_pyListIndex hmem

theorem getD_mem_of_lt {l : List String} {i : Nat} (h : i < l.length) (d : String) :
    l.getD i d ∈ l := by
  rw [List.getD_eq_getElem l d h]
  exact List.getElem_mem h

theorem getD_map_of_lt (f : String → String) {l : List String} {i : Nat}
    (h : i < l.length) (d d' : String) :
    (l.map f).getD i d = f (l.getD i d') := by
  have h' : i < (l.map f).length := by simpa using h
  rw [List.getD_eq_getElem _ d h', List.getD_eq_getElem l d' h, List.getElem_map]

theorem get?_eq_some_getD {l : List String} {i : Nat} (h : i < l.length) (d : String) :
    l.get? i = some (l.getD i d) := by
  rw [List.get?_eq_getElem?, List.getElem?_eq_getElem h, List.getD_eq_getElem l d h]

theorem pyIndexGet_nonneg (l : List String) (n : Int) (h : 0 ≤ n) :
    pyIndexGet l n = l.get? n.toNat := by
  simp only [pyIndexGet]
  rw [if_neg (by omega : ¬ n < 0), if_pos h]

theorem pyIndexGet_none_of_ge (l : List String) (n : Int)
    (h : (l.length : Int) ≤ n) :
    pyIndexGet l n = none := by
  have h0 : 0 ≤ n := le_trans (Int.ofNat_nonneg _) h
  rw [pyIndexGet_nonneg l n h0, List.get?_eq_getElem?]
  exact List.getElem?_eq_none (by omega)

/-- The relocated index produced by the shuffle step locates the remembered
option text, provided the remembered text occurs in the shuffled list. -/
theorem shuffle_relocate_getD_eq (shuffle : List String → List String)
    (hsh : ∀ l, (shuffle l).Perm l) (options : List String) (ci : Nat)
    (hci : ci < options.length) :
    (shuffle_relocate shuffle options ci).1.getD
      (shuffle_relocate shuffle options ci).2 "" = options.getD ci "" := by
  have hmem : options.getD ci "" ∈ options := getD_mem_of_lt hci ""
  have hmem' : options.getD ci "" ∈ shuffle options := (hsh options).mem_iff.mpr hmem
  exact getD_pyListIndex hmem'

/-- The relocated index produced by the shuffle step is in range. -/
theorem shuffle_relocate_snd_lt (shuffle : List String → List String)
    (hsh : ∀ l, (shuffle l).Perm l) (options : List String) (ci : Nat)
    (hci : ci < options.length) :
    (shuffle_relocate shuffle options ci).2 < options.length := by
  have hmem : options.getD ci "" ∈ options := getD_mem_of_lt hci ""
  have hmem' : options.getD ci "" ∈ shuffle options := (hsh options).mem_iff.mpr hmem
  have := pyListIndex_lt_length hmem'
  calc (shuffle_relocate shuffle options ci).2 < (shuffle options).length := this
    _ = options.length := (hsh options).length_eq

/-! ## C6: the shuffle-and-relocate step -/

/-- **C6.** For every valid 4-option input with an in-range correct index and
every permutation the `random.shuffle` oracle may return, the output of the
shuffle-and-relocate step (lines 403–405 / 485–487) is a permutation of the
same multiset of option texts, the recomputed index is in `[0, 4)`, and the
option text at the recomputed index equals the original correct-option
text. -/
theorem shuffle_relocate_correct (shuffle : List String → List String)
    (hsh : ∀ l, (shuffle l).Perm l)
    (options : List String) (ci : Nat)
    (h4 : options.length = 4) (hci : ci < 4) :
    (shuffle_relocate shuffle options ci).1.Perm options
    ∧ (shuffle_relocate shuffle options ci).2 < 4
    ∧ (shuffle_relocate shuffle options ci).1.getD
        (shuffle_relocate shuffle options ci).2 "" = options.getD ci "" := by
  have hlt : ci < options.length := h4 ▸ hci
  have hmem : options.getD ci "" ∈ options := getD_mem_of_lt hlt ""
  have hmem' : options.getD ci "" ∈ shuffle options := (hsh options).mem_iff.mpr hmem
  refine ⟨hsh options, ?_, getD_pyListIndex hmem'⟩
  have := pyListIndex_lt_length hmem'
  calc pyListIndex (options.getD ci "") (shuffle options) < (shuffle options).length := this
    _ = options.length := (hsh options).length_eq
    _ = 4 := h4

/-- Witness for `shuffle_relocate_correct` at a concrete input: the identity
permutation on `["a", "b", "c", "d"]` with correct index 2. -/
theorem shuffle_relocate_correct_witness :
    (shuffle_relocate id ["a", "b", "c", "d"] 2).1.Perm ["a", "b", "c", "d"]
    ∧ (shuffle_relocate id ["a", "b", "c", "d"] 2).2 < 4
    ∧ (shuffle_relocate id ["a", "b", "c", "d"] 2).1.getD
        (shuffle_relocate id ["a", "b", "c", "d"] 2).2 ""
      = (["a", "b", "c", "d"] : List String).getD 2 "" :=
  shuffle_relocate_correct id (fun l => List.Perm.refl l) ["a", "b", "c", "d"] 2
    (by decide) (by decide)

/-! ## C4: the scoring ledger -/

theorem dictGet?_dictSet_self {α β : Type} [DecidableEq α] (m : List (α × β))
    (k : α) (v : β) : dictGet? (dictSet m k v) k = some v := by
  induction m with
  | nil => simp [dictSet, dictGet?]
  | cons kv rest ih =>
    by_cases hk : kv.1 = k
    · simp [dictSet, dictGet?, hk]
    · simp [dictSet, dictGet?, hk, ih]

theorem dictGet?_dictSet_other {α β : Type} [DecidableEq α] (m : List (α × β))
    (k u : α) (v : β) (h : u ≠ k) :
    dictGet? (dictSet m k v) u = dictGet? m u := by
  have h' : k ≠ u := fun hh => h hh.symm
  induction m with
  | nil => simp [dictSet, dictGet?, h']
  | cons kv rest ih =>
    by_cases hk : kv.1 = k
    · subst hk
      simp [dictSet, dictGet?, h']
    · simp [dictSet, dictGet?, hk, ih]

/-- **C4.** For every answer event processed by `poll_answer_handler`:
if the event's poll id is not a key of `dailyquiz_polls`, the score map is
returned unchanged; if it is a key and the recorded correct index is among
the chosen option ids, exactly that participant's score is incremented by
exactly 1 (a participant absent from the map ends at 1), all other
participants' entries being untouched; and if the recorded correct index is
not among the chosen option ids, the score map is returned unchanged. -/
theorem poll_answer_handler_correct (polls : List (String × Nat))
    (scores : List (Nat × Nat)) (pid : String) (uid : Nat) (oids : List Nat) :
    (dictGet? polls pid = none →
      poll_answer_handler polls scores pid uid oids = scores)
    ∧ (∀ c, dictGet? polls pid = some c → c ∈ oids →
        dictGet? (poll_answer_handler polls scores pid uid oids) uid
            = some ((dictGet? scores uid).getD 0 + 1)
        ∧ ∀ u, u ≠ uid →
            dictGet? (poll_answer_handler polls scores pid uid oids) u
              = dictGet? scores u)
    ∧ (∀ c, dictGet? polls pid = some c → c ∉ oids →
        poll_answer_handler polls scores pid uid oids = scores) := by
  refine ⟨fun hnone => ?_, fun c hc hin => ?_, fun c hc hout => ?_⟩
  · simp [poll_answer_handler, hnone]
  · constructor
    · simp [poll_answer_handler, hc, hin, dictGet?_dictSet_self]
    · intro u hu
      simp [poll_answer_handler, hc, hin, dictGet?_dictSet_other _ _ _ _ hu]
  · simp [poll_answer_handler, hc, hout]

/-- Witness for `poll_answer_handler_correct` at concrete inputs: one
recorded poll `"p1"` with correct option 2, a participant `7` who chose
options `{0, 2}`, and a prior score of 4 for participant `9`. -/
theorem poll_answer_handler_correct_witness :
    dictGet? (poll_answer_handler [("p1", 2)] [(9, 4)] "p1" 7 [0, 2]) 7
        = some ((dictGet? [(9, 4)] 7).getD 0 + 1)
    ∧ dictGet? (poll_answer_handler [("p1", 2)] [(9, 4)] "p1" 7 [0, 2]) 9
        = dictGet? [(9, 4)] 9 :=
  ⟨((poll_answer_handler_correct [("p1", 2)] [(9, 4)] "p1" 7 [0, 2]).2.1 2
      (by decide) (by decide)).1,
   ((poll_answer_handler_correct [("p1", 2)] [(9, 4)] "p1" 7 [0, 2]).2.1 2
      (by decide) (by decide)).2 9 (by decide)⟩

/-! ## C8: input validation in the poll-authoring flow -/

/-- **C8.** At the options step, the input split on commas with blank
entries discarded and entries beyond the 10th discarded becomes the
collected options when at least 2 remain, and fewer than 2 re-prompts
without advancing; at the correct-number step, only an integer whose 1-based
value indexes into the collected options advances the flow (publishing with
the 0-based index), while non-numeric or out-of-range input re-prompts
without advancing. -/
theorem conversation_input_validation (text q : String) (options : List String) :
    ((2 ≤ (collectedOptions text).length →
        receive_options_channel text = some (collectedOptions text))
     ∧ ((collectedOptions text).length < 2 → receive_options_channel text = none))
    ∧ (pyParseInt text = none →
        ∀ ok, receive_correct_option_channel text q options ok = .reprompt)
    ∧ (∀ n : Int, pyParseInt text = some n →
        (1 ≤ n → n ≤ (options.length : Int) →
          receive_correct_option_channel text q options true
            = .done (some ({ question := pyTake q 300, options := options,
                             is_anonymous := true,
                             correct_option_id := (n - 1).toNat }, POLL_DURATION)) false)
        ∧ ((n < 1 ∨ (options.length : Int) < n) →
            ∀ ok, receive_correct_option_channel text q options ok = .reprompt)) := by
  refine ⟨⟨fun h2 => ?_, fun h2 => ?_⟩, fun hp ok => ?_, fun n hp => ⟨fun h1 hn => ?_, fun hout ok => ?_⟩⟩
  · unfold receive_options_channel
    unfold collectedOptions at h2
    rw [List.length_take] at h2
    rw [if_neg (by omega)]
    rfl
  · unfold receive_options_channel
    unfold collectedOptions at h2
    rw [List.length_take] at h2
    rw [if_pos (by omega)]
  · simp only [receive_correct_option_channel, hp]
  · simp only [receive_correct_option_channel, hp]
    rw [if_neg (by omega)]
    rfl
  · simp only [receive_correct_option_channel, hp]
    rw [if_pos (by omega)]

/-- Witness for `conversation_input_validation`: the input `"a, b ,, c"`
collects options `["a", "b", "c"]`, and at the correct-number step the input
`"2"` against those options publishes with 0-based correct index 1. -/
theorem conversation_input_validation_witness :
    receive_options_channel "a, b ,, c" = some (collectedOptions "a, b ,, c")
    ∧ receive_correct_option_channel "2" "q" ["a", "b", "c"] true
        = .done (some ({ question := pyTake "q" 300, options := ["a", "b", "c"],
                         is_anonymous := true,
                         correct_option_id := ((2 : Int) - 1).toNat }, POLL_DURATION)) false :=
  ⟨(conversation_input_validation "a, b ,, c" "q" []).1.1 (by decide),
   ((conversation_input_validation "2" "q" ["a", "b", "c"]).2.2 2 (by decide)).1
     (by decide) (by decide)⟩

/-! ## C10: the anonymity answer has no effect -/

/-- **C10.** In the poll-authoring flow the anonymity answer has no effect on
the published poll: the two accepted tokens `"yes"` and `"no"` produce the
same successor state, the stored anonymity field is `True` for both, and
every poll the flow publishes has `is_anonymous = True`. -/
theorem anonymity_answer_has_no_effect :
    receive_poll_type_channel "yes" = receive_poll_type_channel "no"
    ∧ receive_poll_type_channel "yes" = some true
    ∧ ∀ (text q : String) (options : List String) (p : PublishedPoll)
        (d : Nat) (f : Bool),
        receive_correct_option_channel text q options true = .done (some (p, d)) f →
        p.is_anonymous = true := by
  refine ⟨by decide, by decide, fun text q options p d f h => ?_⟩
  cases hp : pyParseInt text with
  | none => simp only [receive_correct_option_channel, hp] at h; cases h
  | some n =>
    simp only [receive_correct_option_channel, hp] at h
    by_cases hidx : ((n - 1 : Int) < 0 ∨ (options.length : Int) ≤ n - 1)
    · rw [if_pos hidx] at h
      cases h
    · rw [if_neg hidx] at h
      simp only [eq_self_iff_true, if_true, CorrectResult.done.injEq,
        Option.some.injEq, Prod.mk.injEq] at h
      obtain ⟨⟨hp', _⟩, _⟩ := h
      rw [← hp']

/-- Witness for `anonymity_answer_has_no_effect`: the poll published from
input `"1"` over options `["a", "b"]` is anonymous. -/
theorem anonymity_answer_has_no_effect_witness :
    ({ question := pyTake "q" 300, options := ["a", "b"], is_anonymous := true,
       correct_option_id := 0 } : PublishedPoll).is_anonymous = true :=
  anonymity_answer_has_no_effect.2.2 "1" "q" ["a", "b"]
    { question := pyTake "q" 300, options := ["a", "b"], is_anonymous := true,
      correct_option_id := 0 } POLL_DURATION false (by decide)

/-! ## C2: authorization at the flow entry points -/

/-- **C2 counterexample.** The claim fails on the `/dailyquiz` entry point:
with an empty authorization set, the (unauthorized) caller `999` is rejected
by the `/poll` entry point, yet `start_dailyquiz` puts the same caller
straight into state `DAILYQUIZ_TOPIC` — a conversation session is created
(the returned state is not `ConversationHandler.END`). -/
theorem dailyquiz_entry_unauthorized_counterexample :
    start_poll_channel [] 999 = CONV_END
    ∧ start_dailyquiz 999 = DAILYQUIZ_TOPIC
    ∧ DAILYQUIZ_TOPIC ≠ CONV_END := by
  decide

/-- **C2 amended.** Only the poll-authoring entry point fails closed: a
caller whose id is not in `AUTHORIZED_USER_IDS` is rejected by `/poll`
before state 1 with no session created, while the `/dailyquiz` entry point
performs no authorization check and enters its first state for every
caller. -/
theorem entry_point_authorization (authorized : List Nat) (uid uid2 : Nat)
    (h : uid ∉ authorized) :
    start_poll_channel authorized uid = CONV_END
    ∧ start_dailyquiz uid2 = DAILYQUIZ_TOPIC
    ∧ DAILYQUIZ_TOPIC ≠ CONV_END := by
  refine ⟨?_, rfl, by decide⟩
  simp [start_poll_channel, h]

/-- Witness for `entry_point_authorization` with the authorization set
`{1, 2}` and the unauthorized caller `999`. -/
theorem entry_point_authorization_witness :
    start_poll_channel [1, 2] 999 = CONV_END
    ∧ start_dailyquiz 999 = DAILYQUIZ_TOPIC
    ∧ DAILYQUIZ_TOPIC ≠ CONV_END :=
  entry_point_authorization [1, 2] 999 999 (by decide)

/-! ## C1: defaulting of a defective `correct_index` -/

/-- **C1 counterexample.** In the daily-quiz scheduler path, a payload whose
`options` list has exactly 4 entries but whose `correct_index` is the
out-of-range integer 7 is *not* defaulted to 0: `options[correct_index]`
(line 485, outside any `try`) raises an uncaught `IndexError`, the item does
not proceed to shuffling and publication, and the scheduler task dies. -/
theorem dailyquiz_out_of_range_index_counterexample :
    dailyquiz_item_step id
      { question := some "Q", options := some ["a", "b", "c", "d"],
        correct_index := .ofInt 7 } true = .crashed := by
  decide

/-- **C1 amended.** In the single-question path a `correct_index` that is
missing, non-integer, or outside `[0, 4)` is defaulted to 0 and the item
proceeds to shuffling and publication (the published correct option is the
truncated first option).  In the daily-quiz scheduler path only a *missing*
`correct_index` is defaulted to 0; a present non-integer value, or a present
integer outside Python's index range (such as 4), is not defaulted — the
iteration raises an uncaught exception instead of publishing. -/
theorem correct_index_defaulting (shuffle : List String → List String)
    (hsh : ∀ l, (shuffle l).Perm l) (text q : String) (opts : List String)
    (ci : CIField) (h4 : opts.length = 4) (hci : ciInvalidFor4 ci = true) :
    (∃ p, handle_auto_quiz shuffle text
        { question := some q, options := some opts, correct_index := ci } true
          = .done (some (p, POLL_DURATION)) false
      ∧ p.options.getD p.correct_option_id "" = truncateOption (opts.getD 0 ""))
    ∧ (∃ p rc, dailyquiz_item_step shuffle
        { question := some q, options := some opts, correct_index := .missing } true
          = .published p none rc
      ∧ p.options.getD p.correct_option_id "" = opts.getD 0 "")
    ∧ dailyquiz_item_step shuffle
        { question := some q, options := some opts, correct_index := .notInt } true
          = .crashed
    ∧ dailyquiz_item_step shuffle
        { question := some q, options := some opts, correct_index := .ofInt 4 } true
          = .crashed := by
  have hlen0 : (0 : Nat) < opts.length := by omega
  have hmlen : (opts.map truncateOption).length = 4 := by simpa using h4
  have hval : validate_correct_index ci opts.length = 0 := by
    cases ci with
    | missing => rfl
    | notInt => rfl
    | ofInt n =>
      have hn : n < 0 ∨ 4 ≤ n := by
        simpa [ciInvalidFor4] using hci
      simp only [validate_correct_index]
      rw [if_neg (by omega)]
  refine ⟨?_, ?_, ?_, ?_⟩
  · refine ⟨{ question := pyTake text 300,
              options := (shuffle_relocate shuffle (opts.map truncateOption) 0).1,
              is_anonymous := true,
              correct_option_id := (shuffle_relocate shuffle (opts.map truncateOption) 0).2 },
            ?_, ?_⟩
    · simp only [handle_auto_quiz]
      rw [if_pos h4, hval]
      simp
    · have h0m : (0 : Nat) < (opts.map truncateOption).length := by omega
      rw [shuffle_relocate_getD_eq shuffle hsh _ 0 h0m]
      exact getD_map_of_lt truncateOption hlen0 "" ""
  · have hg : pyIndexGet opts 0 = some (opts.getD 0 "") := by
      rw [pyIndexGet_nonneg opts 0 le_rfl]
      exact get?_eq_some_getD hlen0 ""
    have hmem : opts.getD 0 "" ∈ opts := getD_mem_of_lt hlen0 ""
    have hmem' : opts.getD 0 "" ∈ shuffle opts := (hsh opts).mem_iff.mpr hmem
    refine ⟨{ question := pyTake q 300, options := shuffle opts,
              is_anonymous := true,
              correct_option_id := pyListIndex (opts.getD 0 "") (shuffle opts) },
            pyListIndex (opts.getD 0 "") (shuffle opts), ?_, ?_⟩
    · simp only [dailyquiz_item_step]
      rw [if_pos h4]
      simp only [hg]
      simp
    · exact getD_pyListIndex hmem'
  · simp only [dailyquiz_item_step]
    rw [if_pos h4]
  · have hg4 : pyIndexGet opts 4 = none :=
      pyIndexGet_none_of_ge opts 4 (by omega)
    simp only [dailyquiz_item_step]
    rw [if_pos h4]
    simp only [hg4]

/-- Witness for `correct_index_defaulting`: the identity permutation over
`["a", "b", "c", "d"]` with a missing `correct_index`. -/
theorem correct_index_defaulting_witness :
    (∃ p, handle_auto_quiz id "T"
        { question := some "Q", options := some ["a", "b", "c", "d"],
          correct_index := .missing } true
          = .done (some (p, POLL_DURATION)) false
      ∧ p.options.getD p.correct_option_id ""
          = truncateOption ((["a", "b", "c", "d"] : List String).getD 0 ""))
    ∧ (∃ p rc, dailyquiz_item_step id
        { question := some "Q", options := some ["a", "b", "c", "d"],
          correct_index := .missing } true
          = .published p none rc
      ∧ p.options.getD p.correct_option_id ""
          = (["a", "b", "c", "d"] : List String).getD 0 "")
    ∧ dailyquiz_item_step id
        { question := some "Q", options := some ["a", "b", "c", "d"],
          correct_index := .notInt } true
          = .crashed
    ∧ dailyquiz_item_step id
        { question := some "Q", options := some ["a", "b", "c", "d"],
          correct_index := .ofInt 4 } true
          = .crashed :=
  correct_index_defaulting id (fun l => List.Perm.refl l) "T" "Q"
    ["a", "b", "c", "d"] .missing rfl (by decide)

/-! ## C7: the 95-character truncation -/

/-- **C7 counterexample.** The daily-quiz scheduler path publishes a
100-character option verbatim: no 95-character truncation (and no ellipsis
marker) is applied before shuffling in that path. -/
theorem dailyquiz_no_truncation_counterexample :
    dailyPublishedOptions (dailyquiz_item_step id
      { question := some "Q", options := some [longOpt, "b", "c", "d"],
        correct_index := .ofInt 0 } true)
      = some [longOpt, "b", "c", "d"]
    ∧ 95 < pyLen longOpt := by
  exact ⟨rfl, by decide⟩

/-- **C7 amended.** Only the single-question auto-quiz path truncates: there
every option is capped to 95 characters with a trailing ellipsis marker
before shuffling, and the correct option is identified among the already
truncated texts.  The daily-quiz scheduler path shuffles and publishes the
generated option texts unmodified. -/
theorem truncation_only_in_auto_path (shuffle : List String → List String)
    (hsh : ∀ l, (shuffle l).Perm l) (text q : String) (opts : List String)
    (n : Int) (h4 : opts.length = 4) (h0 : 0 ≤ n) (hn : n < 4) :
    (∃ p, handle_auto_quiz shuffle text
        { question := some q, options := some opts, correct_index := .ofInt n } true
          = .done (some (p, POLL_DURATION)) false
      ∧ p.options = shuffle (opts.map truncateOption)
      ∧ p.options.Perm (opts.map truncateOption)
      ∧ p.options.getD p.correct_option_id ""
          = truncateOption (opts.getD n.toNat ""))
    ∧ (∃ p rc, dailyquiz_item_step shuffle
        { question := some q, options := some opts, correct_index := .ofInt n } true
          = .published p none rc
      ∧ p.options = shuffle opts
      ∧ p.options.Perm opts) := by
  have hlt : n.toNat < opts.length := by omega
  have hmlt : n.toNat < (opts.map truncateOption).length := by simpa using hlt
  have hval : validate_correct_index (.ofInt n) opts.length = n.toNat := by
    simp only [validate_correct_index]
    rw [if_pos ⟨h0, by omega⟩]
  constructor
  · refine ⟨{ question := pyTake text 300,
              options := (shuffle_relocate shuffle (opts.map truncateOption) n.toNat).1,
              is_anonymous := true,
              correct_option_id := (shuffle_relocate shuffle (opts.map truncateOption) n.toNat).2 },
            ?_, rfl, hsh _, ?_⟩
    · simp only [handle_auto_quiz]
      rw [if_pos h4, hval]
      simp
    · rw [shuffle_relocate_getD_eq shuffle hsh _ n.toNat hmlt]
      exact getD_map_of_lt truncateOption hlt "" ""
  · have hg : pyIndexGet opts n = some (opts.getD n.toNat "") := by
      rw [pyIndexGet_nonneg opts n h0]
      exact get?_eq_some_getD hlt ""
    refine ⟨{ question := pyTake q 300, options := shuffle opts,
              is_anonymous := true,
              correct_option_id := pyListIndex (opts.getD n.toNat "") (shuffle opts) },
            pyListIndex (opts.getD n.toNat "") (shuffle opts), ?_, rfl, hsh _⟩
    simp only [dailyquiz_item_step]
    rw [if_pos h4]
    simp only [hg]
    simp

/-- Witness for `truncation_only_in_auto_path`: the identity permutation
over `["a", "b", "c", "d"]` with correct index 1. -/
theorem truncation_only_in_auto_path_witness :
    (∃ p, handle_auto_quiz id "T"
        { question := some "Q", options := some ["a", "b", "c", "d"],
          correct_index := .ofInt 1 } true
          = .done (some (p, POLL_DURATION)) false
      ∧ p.options = id ((["a", "b", "c", "d"] : List String).map truncateOption)
      ∧ p.options.Perm ((["a", "b", "c", "d"] : List String).map truncateOption)
      ∧ p.options.getD p.correct_option_id ""
          = truncateOption ((["a", "b", "c", "d"] : List String).getD (1 : Int).toNat ""))
    ∧ (∃ p rc, dailyquiz_item_step id
        { question := some "Q", options := some ["a", "b", "c", "d"],
          correct_index := .ofInt 1 } true
          = .published p none rc
      ∧ p.options = id ["a", "b", "c", "d"]
      ∧ p.options.Perm ["a", "b", "c", "d"]) :=
  truncation_only_in_auto_path id (fun l => List.Perm.refl l) "T" "Q"
    ["a", "b", "c", "d"] 1 rfl (by decide) (by decide)

/-! ## C3: closure scheduling after publication -/

/-- **C3 counterexample.** The daily-quiz scheduler path refutes the claim:
on transport success it publishes the poll but schedules no deferred closure
task (`closeDelay = none`; `run_dailyquiz` never calls
`job_queue.run_once`), and on transport failure it only logs — no failure
notification is sent to the caller. -/
theorem dailyquiz_no_closure_counterexample :
    dailyquiz_item_step id
      { question := some "Q", options := some ["a", "b", "c", "d"],
        correct_index := .ofInt 0 } true
      = .published { question := pyTake "Q" 300, options := ["a", "b", "c", "d"],
                     is_anonymous := true, correct_option_id := 0 } none 0
    ∧ dailyquiz_item_step id
      { question := some "Q", options := some ["a", "b", "c", "d"],
        correct_index := .ofInt 0 } false
      = .publishFailed false := by
  exact ⟨rfl, rfl⟩

/-- **C3 amended.** In the interactive `/poll` path and the single-question
auto-quiz path, transport success schedules a deferred closure after
`POLL_DURATION` (one day) and transport failure notifies the caller and
schedules nothing.  The daily-quiz scheduler path schedules no closure task
for any poll it publishes, and notifies nobody on transport failure. -/
theorem closure_scheduling (text q : String) (options : List String) (n : Int)
    (hp : pyParseInt text = some n) (h1 : 1 ≤ n)
    (hn : n ≤ (options.length : Int)) :
    (∃ p, receive_correct_option_channel text q options true
        = .done (some (p, POLL_DURATION)) false)
    ∧ receive_correct_option_channel text q options false = .done none true
    ∧ (∀ (sh : List String → List String) (txt : String) (payload : RawPayload)
         (p : PublishedPoll) (d : Nat) (f : Bool),
        handle_auto_quiz sh txt payload true = .done (some (p, d)) f →
          d = POLL_DURATION ∧ f = false)
    ∧ (∀ (sh : List String → List String) (txt : String) (payload : RawPayload),
        handle_auto_quiz sh txt payload false = .rejected true
        ∨ handle_auto_quiz sh txt payload false = .done none true)
    ∧ (∀ (sh : List String → List String) (payload : RawPayload)
         (p : PublishedPoll) (cd : Option Nat) (rc : Nat),
        dailyquiz_item_step sh payload true = .published p cd rc → cd = none)
    ∧ (∀ (sh : List String → List String) (payload : RawPayload) (f : Bool),
        dailyquiz_item_step sh payload false = .publishFailed f → f = false) := by
  refine ⟨?_, ?_, ?_, ?_, ?_, ?_⟩
  · refine ⟨{ question := pyTake q 300, options := options, is_anonymous := true,
              correct_option_id := (n - 1).toNat }, ?_⟩
    simp only [receive_correct_option_channel, hp]
    rw [if_neg (by omega)]
    simp
  · simp only [receive_correct_option_channel, hp]
    rw [if_neg (by omega)]
    simp
  · intro sh txt payload p d f h
    cases hop : payload.options with
    | none => simp only [handle_auto_quiz, hop] at h; cases h
    | some opts =>
      simp only [handle_auto_quiz, hop] at h
      by_cases hl : opts.length = 4
      · rw [if_pos hl] at h
        simp only [if_true, AutoQuizResult.done.injEq, Option.some.injEq,
          Prod.mk.injEq, eq_self_iff_true] at h
        exact ⟨h.1.2.symm, h.2.symm⟩
      · rw [if_neg hl] at h
        cases h
  · intro sh txt payload
    cases hop : payload.options with
    | none => left; simp only [handle_auto_quiz, hop]
    | some opts =>
      by_cases hl : opts.length = 4
      · right
        simp only [handle_auto_quiz, hop]
        rw [if_pos hl]
        simp
      · left
        simp only [handle_auto_quiz, hop]
        rw [if_neg hl]
  · intro sh payload p cd rc h
    cases hop : payload.options with
    | none => simp only [dailyquiz_item_step, hop] at h; cases h
    | some opts =>
      simp only [dailyquiz_item_step, hop] at h
      by_cases hl : opts.length = 4
      · rw [if_pos hl] at h
        cases hci : payload.correct_index with
        | notInt => rw [hci] at h; cases h
        | missing =>
          rw [hci] at h
          cases hg : pyIndexGet opts 0 with
          | none => simp only [hg] at h; cases h
          | some a =>
            simp only [hg, if_true, eq_self_iff_true,
              DailyStepResult.published.injEq] at h
            exact h.2.1.symm
        | ofInt m =>
          rw [hci] at h
          cases hg : pyIndexGet opts m with
          | none => simp only [hg] at h; cases h
          | some a =>
            simp only [hg, if_true, eq_self_iff_true,
              DailyStepResult.published.injEq] at h
            exact h.2.1.symm
      · rw [if_neg hl] at h
        cases h
  · intro sh payload f h
    cases hop : payload.options with
    | none => simp only [dailyquiz_item_step, hop] at h; cases h
    | some opts =>
      simp only [dailyquiz_item_step, hop] at h
      by_cases hl : opts.length = 4
      · rw [if_pos hl] at h
        cases hci : payload.correct_index with
        | notInt => rw [hci] at h; cases h
        | missing =>
          rw [hci] at h
          cases hg : pyIndexGet opts 0 with
          | none => simp only [hg] at h; cases h
          | some a =>
            simp only [hg, Bool.false_eq_true, if_false,
              DailyStepResult.publishFailed.injEq] at h
            exact h.symm
        | ofInt m =>
          rw [hci] at h
          cases hg : pyIndexGet opts m with
          | none => simp only [hg] at h; cases h
          | some a =>
            simp only [hg, Bool.false_eq_true, if_false,
              DailyStepResult.publishFailed.injEq] at h
            exact h.symm
      · rw [if_neg hl] at h
        cases h

/-- Witness for `closure_scheduling` at the correct-number input `"1"` over
two options. -/
theorem closure_scheduling_witness :
    (∃ p, receive_correct_option_channel "1" "q" ["a", "b"] true
        = .done (some (p, POLL_DURATION)) false)
    ∧ receive_correct_option_channel "1" "q" ["a", "b"] false = .done none true
    ∧ (∀ (sh : List String → List String) (txt : String) (payload : RawPayload)
         (p : PublishedPoll) (d : Nat) (f : Bool),
        handle_auto_quiz sh txt payload true = .done (some (p, d)) f →
          d = POLL_DURATION ∧ f = false)
    ∧ (∀ (sh : List String → List String) (txt : String) (payload : RawPayload),
        handle_auto_quiz sh txt payload false = .rejected true
        ∨ handle_auto_quiz sh txt payload false = .done none true)
    ∧ (∀ (sh : List String → List String) (payload : RawPayload)
         (p : PublishedPoll) (cd : Option Nat) (rc : Nat),
        dailyquiz_item_step sh payload true = .published p cd rc → cd = none)
    ∧ (∀ (sh : List String → List String) (payload : RawPayload) (f : Bool),
        dailyquiz_item_step sh payload false = .publishFailed f → f = false) :=
  closure_scheduling "1" "q" ["a", "b"] 1 (by decide) (by decide) (by decide)

/-! ## C5: cooperative stop of the scheduler -/

/-- Invariant behind the stop semantics: once the `active` flag reads false
at the top of iteration `j`, the loop can publish only during iterations
before `j`, so the number of published polls from any loop state at
iteration `i ≤ j` grows by at most `j - i`. -/
theorem dq_loop_published_le (shuffle : List String → List String)
    (gen : Nat → GenResult) (activeAt : Nat → Bool) (publishOk : Nat → Bool)
    (pollIdAt : Nat → String) (j : Nat) (hj : activeAt j = false) :
    ∀ (fuel i : Nat) (pub : List PublishedPoll) (polls : List (String × Nat)),
      i ≤ j →
      (dq_loop shuffle gen activeAt publishOk pollIdAt fuel i pub polls).1.length
        ≤ pub.length + (j - i) := by
  intro fuel
  induction fuel with
  | zero =>
    intro i pub polls hij
    simp [dq_loop]
  | succ fuel ih =>
    intro i pub polls hij
    by_cases hi : activeAt i = true
    · have hij' : i < j := by
        rcases Nat.lt_or_ge i j with hlt | hge
        · exact hlt
        · exfalso
          have hIJ : i = j := Nat.le_antisymm hij hge
          rw [hIJ, hj] at hi
          exact Bool.false_ne_true hi
      unfold dq_loop
      rw [if_pos hi]
      cases hg : gen i with
      | parseFail =>
        have hb := ih (i + 1) pub polls (by omega)
        show (dq_loop shuffle gen activeAt publishOk pollIdAt fuel (i + 1)
          pub polls).1.length ≤ pub.length + (j - i)
        omega
      | payload p =>
        show (match dailyquiz_item_step shuffle p (publishOk i) with
          | DailyStepResult.skipped =>
              dq_loop shuffle gen activeAt publishOk pollIdAt fuel (i + 1) pub polls
          | DailyStepResult.crashed => (pub.reverse, polls, true)
          | DailyStepResult.published poll _ rc =>
              dq_loop shuffle gen activeAt publishOk pollIdAt fuel (i + 1)
                (poll :: pub) (dictSet polls (pollIdAt i) rc)
          | DailyStepResult.publishFailed _ =>
              dq_loop shuffle gen activeAt publishOk pollIdAt fuel (i + 1) pub
                polls).1.length ≤ pub.length + (j - i)
        cases hstep : dailyquiz_item_step shuffle p (publishOk i) with
        | skipped =>
          have hb := ih (i + 1) pub polls (by omega)
          show (dq_loop shuffle gen activeAt publishOk pollIdAt fuel (i + 1)
            pub polls).1.length ≤ pub.length + (j - i)
          omega
        | crashed =>
          show pub.reverse.length ≤ pub.length + (j - i)
          rw [List.length_reverse]
          omega
        | published poll cd rc =>
          have hb := ih (i + 1) (poll :: pub) (dictSet polls (pollIdAt i) rc)
            (by omega)
          show (dq_loop shuffle gen activeAt publishOk pollIdAt fuel (i + 1)
            (poll :: pub) (dictSet polls (pollIdAt i) rc)).1.length
              ≤ pub.length + (j - i)
          simp only [List.length_cons] at hb
          omega
        | publishFailed f =>
          have hb := ih (i + 1) pub polls (by omega)
          show (dq_loop shuffle gen activeAt publishOk pollIdAt fuel (i + 1)
            pub polls).1.length ≤ pub.length + (j - i)
          omega
    · unfold dq_loop
      rw [if_neg hi]
      show pub.reverse.length ≤ pub.length + (j - i)
      rw [List.length_reverse]
      omega

/-- **C5.** The scheduler re-checks the session's `active` flag at the top
of every iteration and exits without publishing further polls once it is
false: if the flag reads false at iteration `j`, at most `j` polls are ever
published.  In particular, for a run with `targetCount = 5` whose flag is
set false after the second question is published, exactly 2 polls are
published and the leaderboard is then rendered. -/
theorem scheduler_stop_semantics (shuffle : List String → List String)
    (gen : Nat → GenResult) (activeAt : Nat → Bool) (publishOk : Nat → Bool)
    (pollIdAt : Nat → String) (fuel j : Nat) (hj : activeAt j = false) :
    (dq_loop shuffle gen activeAt publishOk pollIdAt fuel 0 [] []).1.length ≤ j
    ∧ publishedCount (run_dailyquiz id goodGen stopAfterTwo (fun _ => true)
        (fun _ => "p") (some "History") 5 []) = some 2
    ∧ leaderboardOf (run_dailyquiz id goodGen stopAfterTwo (fun _ => true)
        (fun _ => "p") (some "History") 5 []) = some (render_leaderboard []) := by
  refine ⟨?_, rfl, rfl⟩
  have := dq_loop_published_le shuffle gen activeAt publishOk pollIdAt j hj
    fuel 0 [] [] (Nat.zero_le j)
  simpa using this

/-- Witness for `scheduler_stop_semantics`: a flag that reads false from the
start publishes nothing. -/
theorem scheduler_stop_semantics_witness :
    (dq_loop id goodGen (fun _ => false) (fun _ => true) (fun _ => "p")
        3 0 [] []).1.length ≤ 0
    ∧ publishedCount (run_dailyquiz id goodGen stopAfterTwo (fun _ => true)
        (fun _ => "p") (some "History") 5 []) = some 2
    ∧ leaderboardOf (run_dailyquiz id goodGen stopAfterTwo (fun _ => true)
        (fun _ => "p") (some "History") 5 []) = some (render_leaderboard []) :=
  scheduler_stop_semantics id goodGen (fun _ => false) (fun _ => true)
    (fun _ => "p") 3 0 rfl

/-! ## C9: leaderboard and reset at session end -/

/-- **C9.** Every scheduler run that ends — `targetCount` iterations
completed or stopped via the `active` flag, i.e. every run with a
`finished` outcome — sends the leaderboard rendered from the accumulated
scores, whose order is a permutation of the score entries sorted descending
by score, and afterwards the session is inactive and both the
poll-correlation map and the scores map are reset to empty. -/
theorem session_end_leaderboard_and_reset (shuffle : List String → List String)
    (gen : Nat → GenResult) (activeAt : Nat → Bool) (publishOk : Nat → Bool)
    (pollIdAt : Nat → String) (topic : Option String) (count : Int)
    (scoresAtEnd : List (Nat × Nat)) (r : FinishedRun)
    (h : run_dailyquiz shuffle gen activeAt publishOk pollIdAt topic count
          scoresAtEnd = .finished r) :
    r.leaderboard = render_leaderboard scoresAtEnd
    ∧ (leaderboard_order scoresAtEnd).Perm scoresAtEnd
    ∧ List.Sorted scoreGE (leaderboard_order scoresAtEnd)
    ∧ r.final_active = false
    ∧ r.final_polls = []
    ∧ r.final_scores = [] := by
  have hperm : (leaderboard_order scoresAtEnd).Perm scoresAtEnd :=
    List.perm_insertionSort scoreGE scoresAtEnd
  have hsort : List.Sorted scoreGE (leaderboard_order scoresAtEnd) :=
    List.sorted_insertionSort scoreGE scoresAtEnd
  cases topic with
  | none => simp only [run_dailyquiz] at h; cases h
  | some t =>
    simp only [run_dailyquiz] at h
    by_cases hc : (dq_loop shuffle gen activeAt publishOk pollIdAt count.toNat
        0 [] []).2.2 = true
    · rw [if_pos hc] at h
      cases h
    · rw [if_neg hc] at h
      cases h
      exact ⟨rfl, hperm, hsort, rfl, rfl, rfl⟩

/-- Witness for `session_end_leaderboard_and_reset`: a zero-question run
over the score map `[(1, 2), (3, 5)]`. -/
theorem session_end_leaderboard_and_reset_witness :
    render_leaderboard [(1, 2), (3, 5)] = render_leaderboard [(1, 2), (3, 5)]
    ∧ (leaderboard_order [(1, 2), (3, 5)]).Perm [(1, 2), (3, 5)]
    ∧ List.Sorted scoreGE (leaderboard_order [(1, 2), (3, 5)])
    ∧ (false : Bool) = false
    ∧ ([] : List (String × Nat)) = []
    ∧ ([] : List (Nat × Nat)) = [] :=
  session_end_leaderboard_and_reset id goodGen (fun _ => true) (fun _ => true)
    (fun _ => "p") (some "t") 0 [(1, 2), (3, 5)]
    { published := [], leaderboard := render_leaderboard [(1, 2), (3, 5)],
      final_active := false, final_polls := [], final_scores := [] } (by rfl)

end DeepBot
